import Mathlib

/-!
Verification of the BigRedHacks gesture-recognition pipeline.

Shallow embedding of the Python sources:
  - `gesture_recognition.py` : `GestureRecognizer` (pose classifier,
    wave detector, gesture smoother, per-frame repeat suppression)
  - `run.py` : `GestureRecognitionApp` (continuous-gesture lifecycle,
    pause toggle, exit sequence, dispatch)
  - `actions_client.py` : `ActionsClient` (HTTP send statistics,
    gesture-name mapping, payload shape)

Coordinates and wall-clock times are modelled as rationals.  Euclidean
norm comparisons from the source (`np.linalg.norm(a - b) < c`) are encoded
as the equivalent comparisons on squared distances (both sides of every
such comparison in the source are nonnegative, so `x < y` iff `x^2 < y^2`),
keeping every definition executable and decidable.
-/

/-- Association-list lookup used to model the Python dictionaries held by
the app (for example `last_gesture_time`, `active_gestures`). -/
def lookupQ (l : List (String × ℚ)) (k : String) : Option ℚ :=
  (l.find? (fun p => p.1 = k)).map Prod.snd

/-- Association-list update modelling a Python `dict[k] = v` assignment. -/
def updateQ (l : List (String × ℚ)) (k : String) (v : ℚ) : List (String × ℚ) :=
  if (l.find? (fun p => p.1 = k)).isSome then
    l.map (fun p => if p.1 = k then (k, v) else p)
  else
    l ++ [(k, v)]

/-- Association-list removal modelling Python `del d[k]`. -/
def removeQ (l : List (String × ℚ)) (k : String) : List (String × ℚ) :=
  l.filter (fun p => ¬ p.1 = k)

/-! ## WaveDetector (`GestureRecognizer.detect_wave`) -/

/-- Wave-window size: `self.wave_frames = 7` in `GestureRecognizer.__init__`. -/
def waveFrames : Nat := 7

/-- Wave movement threshold: `self.wave_threshold = 0.05`. -/
def waveThreshold : ℚ := 1/20

/-- Mutable wave-detection state of `GestureRecognizer`:
`hand_positions` (recent wrist samples) and `last_wave_time`. -/
structure WaveState where
  handPositions : List (ℚ × ℚ)
  lastWaveTime : ℚ
  deriving DecidableEq

/-- Initial wave state from `GestureRecognizer.__init__`:
`hand_positions = []`, `last_wave_time = 0`. -/
def initWaveState : WaveState := ⟨[], 0⟩

/-- Consecutive horizontal displacements of the window, as computed by the
`for i in range(1, len(self.hand_positions))` loop of `detect_wave`. -/
def waveMovements (ps : List (ℚ × ℚ)) : List ℚ :=
  (List.zip ps (ps.drop 1)).map (fun pr => pr.2.1 - pr.1.1)

/-- The `(direction_changes, significant_movements)` counters of
`detect_wave`: the loop runs over `i in range(1, len(movements))`, counting
`abs(movements[i]) > threshold` as significant (index 0 is never counted)
and counting a direction change when `movements[i-1] * movements[i] < 0`
with both displacements significant. -/
def waveStats (ms : List ℚ) : Nat × Nat :=
  (List.zip ms (ms.drop 1)).foldl
    (fun acc pr =>
      let dir := if pr.1 * pr.2 < 0 ∧ |pr.1| > waveThreshold ∧ |pr.2| > waveThreshold
        then acc.1 + 1 else acc.1
      let sig := if |pr.2| > waveThreshold then acc.2 + 1 else acc.2
      (dir, sig))
    (0, 0)

/-- Shallow embedding of `GestureRecognizer.detect_wave`.  The input is the
wrist sample of the current frame (`landmarks.landmark[0]`, or `none` when
no landmarks are given) together with the current time.  Returns the boolean
result and the updated state.  The cooldown check
(`current_time - self.last_wave_time < 2.0: return False`) happens before
the sample is appended to `hand_positions`, exactly as in the source. -/
def detectWave (s : WaveState) (wrist : Option (ℚ × ℚ)) (now : ℚ) :
    Bool × WaveState :=
  match wrist with
  | none => (false, s)
  | some pos =>
    if now - s.lastWaveTime < 2 then (false, s)
    else
      let ps0 := s.handPositions ++ [pos]
      let ps := if ps0.length > waveFrames then ps0.drop 1 else ps0
      if ps.length < waveFrames then (false, { s with handPositions := ps })
      else
        let stats := waveStats (waveMovements ps)
        if stats.1 ≥ 1 ∧ stats.2 ≥ 2 then
          (true, { handPositions := [], lastWaveTime := now })
        else
          (false, { s with handPositions := ps })

/-- Feed a sequence of (wrist sample, time) pairs through `detectWave`,
collecting the per-frame results and the final state. -/
def runWave (s : WaveState) : List ((ℚ × ℚ) × ℚ) → List Bool × WaveState
  | [] => ([], s)
  | (p, t) :: rest =>
    let r := detectWave s (some p) t
    let out := runWave r.2 rest
    (r.1 :: out.1, out.2)

/-! ## ActionsClient (`actions_client.py`) -/

/-- Send statistics of `ActionsClient`: `gestures_sent`,
`successful_sends`, `failed_sends`. -/
structure ClientStats where
  gesturesSent : Nat
  successfulSends : Nat
  failedSends : Nat
  deriving DecidableEq

/-- Outcome of the HTTP POST performed by `ActionsClient._send_via_http`:
a status code (with a flag telling whether `response.json()` succeeds),
a `requests.exceptions.Timeout`, a `requests.exceptions.ConnectionError`,
or any other raised exception. -/
inductive HttpResult where
  | status (code : Nat) (jsonOk : Bool)
  | timeout
  | connError
  | otherError
  deriving DecidableEq

/-- Shallow embedding of `ActionsClient._send_via_http`: a 200 response
whose body parses increments `successful_sends`; a non-200 response
increments `failed_sends`; each exception branch (timeout, connection
error, any other exception — including a `json()` failure on a 200
response, caught by the final `except Exception`) increments
`failed_sends`. -/
def sendViaHttp (st : ClientStats) (r : HttpResult) : Bool × ClientStats :=
  match r with
  | .status code jsonOk =>
    if code = 200 then
      if jsonOk then (true, { st with successfulSends := st.successfulSends + 1 })
      else (false, { st with failedSends := st.failedSends + 1 })
    else (false, { st with failedSends := st.failedSends + 1 })
  | .timeout => (false, { st with failedSends := st.failedSends + 1 })
  | .connError => (false, { st with failedSends := st.failedSends + 1 })
  | .otherError => (false, { st with failedSends := st.failedSends + 1 })

/-- Shallow embedding of `ActionsClient.send_gesture` in HTTP mode
(`use_websocket` false): an empty gesture returns `False` without touching
any counter; otherwise `gestures_sent` is incremented and the message is
sent via `_send_via_http`. -/
def sendGesture (st : ClientStats) (gesture : String) (r : HttpResult) :
    Bool × ClientStats :=
  if gesture = "" then (false, st)
  else sendViaHttp { st with gesturesSent := st.gesturesSent + 1 } r

/-- Keyword-assignable parameter names of `ActionsClient.send_gesture`
(`self` excluded): `def send_gesture(self, gesture, timestamp=None)`. -/
def sendGestureParams : List String := ["gesture", "timestamp"]

/-- Keyword arguments used at the call site in
`GestureRecognitionApp._send_gesture_async`:
`self.actions_client.send_gesture(gesture, gesture_state=gesture_state)`. -/
def sendGestureAsyncKeywords : List String := ["gesture_state"]

/-- A Python keyword call binds only when every keyword argument names a
parameter of the callee; otherwise it raises `TypeError` before the body
runs. -/
def keywordCallBinds (params kwargs : List String) : Bool :=
  kwargs.all (fun k => params.contains k)

/-- Keys of the payload built by `ActionsClient.send_gesture`:
`message = {"gesture": gesture, "timestamp": timestamp}`. -/
def sendGestureMessageKeys : List String := ["gesture", "timestamp"]

/-- Payloads that one `_send_gesture_async` call delivers to the action
sink: if the keyword call binds, exactly the one message built by
`send_gesture`; if it does not bind, the `TypeError` is caught by the
`except Exception` handler of `_send_gesture_async` and nothing is sent. -/
def sendGestureAsyncPayloads : List (List String) :=
  if keywordCallBinds sendGestureParams sendGestureAsyncKeywords then
    [sendGestureMessageKeys]
  else []

/-! ## PoseClassifier (`GestureRecognizer.classify_gesture`) -/

/-- The landmark points extracted by `classify_gesture` from the
21-point MediaPipe hand, with the source's variable names (the source
assigns `thumb_ip = points[3]` and `thumb_mcp = points[2]`). -/
structure Landmarks where
  wrist : ℚ × ℚ
  thumbTip : ℚ × ℚ
  thumbIp : ℚ × ℚ
  thumbMcp : ℚ × ℚ
  indexTip : ℚ × ℚ
  indexPip : ℚ × ℚ
  indexMcp : ℚ × ℚ
  middleTip : ℚ × ℚ
  middlePip : ℚ × ℚ
  middleMcp : ℚ × ℚ
  ringTip : ℚ × ℚ
  ringPip : ℚ × ℚ
  ringMcp : ℚ × ℚ
  pinkyTip : ℚ × ℚ
  pinkyPip : ℚ × ℚ
  pinkyMcp : ℚ × ℚ
  deriving DecidableEq

/-- Squared Euclidean distance; the source's `np.linalg.norm(a - b)`
comparisons are expressed on squares. -/
def sqDist (a b : ℚ × ℚ) : ℚ :=
  (a.1 - b.1)^2 + (a.2 - b.2)^2

/-- Thumb branch of `is_finger_extended`: the distance check
`tip_to_wrist > mcp_to_wrist * 1.4` (encoded on squares, `1.4^2 = 49/25`)
together with `thumb_tip[1] < thumb_mcp[1] - 0.02` (pointing up) or
`thumb_tip[1] > thumb_mcp[1] + 0.02` (pointing down). -/
def thumbExtended (lm : Landmarks) : Bool :=
  decide (sqDist lm.thumbTip lm.wrist > 49/25 * sqDist lm.thumbMcp lm.wrist) &&
  (decide (lm.thumbTip.2 < lm.thumbMcp.2 - 1/50) ||
   decide (lm.thumbTip.2 > lm.thumbMcp.2 + 1/50))

/-- Non-thumb branch of `is_finger_extended`: `tip[1] < pip[1] < mcp[1]`. -/
def fingerExtended (tip pip mcp : ℚ × ℚ) : Bool :=
  decide (tip.2 < pip.2) && decide (pip.2 < mcp.2)

/-- The five-element `fingers_up` vector
(thumb, index, middle, ring, pinky). -/
def fingersUp (lm : Landmarks) : Bool × Bool × Bool × Bool × Bool :=
  (thumbExtended lm,
   fingerExtended lm.indexTip lm.indexPip lm.indexMcp,
   fingerExtended lm.middleTip lm.middlePip lm.middleMcp,
   fingerExtended lm.ringTip lm.ringPip lm.ringMcp,
   fingerExtended lm.pinkyTip lm.pinkyPip lm.pinkyMcp)

/-- Shallow embedding of `GestureRecognizer.classify_gesture`.  The
stateful `detect_wave` consultation is abstracted into the boolean
argument `waveDetected` (the result of `detectWave` on the current frame);
everything else follows the source's if/elif chain in order.  Distance
thresholds `< 0.05` and `> 0.08` are encoded on squared distances
(`0.05^2 = 1/400`, `0.08^2 = 4/625`). -/
def classifyGesture (waveDetected : Bool) (lm : Landmarks) : Option String :=
  let ft := thumbExtended lm
  let fi := fingerExtended lm.indexTip lm.indexPip lm.indexMcp
  let fm := fingerExtended lm.middleTip lm.middlePip lm.middleMcp
  let fr := fingerExtended lm.ringTip lm.ringPip lm.ringMcp
  let fp := fingerExtended lm.pinkyTip lm.pinkyPip lm.pinkyMcp
  let cnt : Nat := (if ft then 1 else 0) + (if fi then 1 else 0) +
    (if fm then 1 else 0) + (if fr then 1 else 0) + (if fp then 1 else 0)
  if waveDetected then some "wave"
  else if ft && fi && fm && !fr && !fp then some "three_fingers_serbian_style"
  else if cnt = 0 then some "fist"
  else if decide (cnt = 1) && ft then
    let avgOtherY := (lm.indexTip.2 + lm.middleTip.2 + lm.ringTip.2 + lm.pinkyTip.2) / 4
    if lm.thumbTip.2 < avgOtherY - 3/100 then some "thumbs_up"
    else if lm.thumbTip.2 > avgOtherY + 1/50 then some "thumbs_down"
    else if lm.thumbTip.2 > lm.wrist.2 + 3/100 then some "thumbs_down"
    else some "fist"
  else if cnt = 5 then some "open_palm"
  else if fi && fm && !fr && !fp then some "peace"
  else if decide (cnt = 2) && ft && fp && !fi && !fm && !fr then some "call"
  else if ft && fi && !fm && !fr && !fp then some "l_shape"
  else if fi && !fm && !fr && !fp then some "pointing"
  else if fi && fp && !fm && !fr then some "rock"
  else if fi && fm && fr && !fp then some "three_fingers"
  else if fm && !fi && !fr && !fp then some "middle_finger"
  else if fr && !fi && !fm && !fp then some "ring_finger"
  else if fp && !fi && !fm && !fr then some "pinky"
  else if fi && fr && !fm && !fp then some "two_fingers_ir"
  else if fm && fr && !fi && !fp then some "two_fingers_mr"
  else if fi && fm && fr && fp && !ft then some "four_fingers"
  else if decide (cnt = 2) && ft && fi && !fm && !fr && !fp then
    (if sqDist lm.thumbTip lm.indexTip < 1/400 then some "pinch" else none)
  else if fi && fm && !ft && !fr && !fp then
    (if sqDist lm.indexTip lm.middleTip > 4/625 then some "spock" else none)
  else if decide (cnt ≥ 3) && fm && fr && fp then
    (if sqDist lm.thumbTip lm.indexTip < 1/400 then some "ok" else none)
  else none

/-! ## GestureSmoother (`GestureRecognizer._smooth_gesture`) -/

/-- The `similar_gestures` table of `GestureRecognizer.__init__`
(`dict.get(key, [])` semantics for keys outside the table). -/
def similarGestures (g : String) : List String :=
  if g = "thumbs_up" then ["fist", "thumbs_down"]
  else if g = "thumbs_down" then ["fist", "thumbs_up"]
  else if g = "fist" then ["thumbs_up", "thumbs_down"]
  else []

/-- History-size cap: `self.gesture_history_size = 5`. -/
def gestureHistorySize : Nat := 5

/-- Shallow embedding of `GestureRecognizer._smooth_gesture`: append the
current (gesture, time) pair when a gesture is present, prune entries older
than one second, cap the history at its last five entries, and override a
single-frame flicker between confusable gestures by returning the previous
gesture.  Returns the (possibly overridden) label and the new history. -/
def smoothGesture (hist : List (String × ℚ)) (g : Option String) (now : ℚ) :
    Option String × List (String × ℚ) :=
  let h1 := match g with
    | some lbl => hist ++ [(lbl, now)]
    | none => hist
  let h2 := h1.filter (fun p => p.2 > now - 1)
  let h3 := if h2.length > gestureHistorySize then
      h2.drop (h2.length - gestureHistorySize) else h2
  if g.isNone ∨ h3.length < 3 then (g, h3)
  else
    let recent := (h3.drop (h3.length - 3)).map Prod.fst
    match recent with
    | [beforePrevious, previous, current] =>
      if current ≠ previous ∧ current ∈ similarGestures previous ∧
         previous ∈ similarGestures beforePrevious then
        (some previous, h3)
      else (g, h3)
    | _ => (g, h3)

/-! ## Per-frame repeat suppression (`GestureRecognizer.process_frame`) -/

/-- Repeat-suppression state of `GestureRecognizer`: `last_gesture` and
`last_gesture_time` (initialised to `None` and `0`). -/
structure RecState where
  lastGesture : Option String
  lastGestureTime : ℚ
  deriving DecidableEq

/-- Initial recognizer state from `GestureRecognizer.__init__`. -/
def initRecState : RecState := ⟨none, 0⟩

/-- Cooldown between detections of the same gesture:
`self.gesture_cooldown = 3.0`. -/
def recGestureCooldown : ℚ := 3

/-- Labels that bypass the recognizer cooldown:
`self.continuous_gestures = {"thumbs_up", "thumbs_down"}`. -/
def recContinuousGestures : List String := ["thumbs_up", "thumbs_down"]

/-- Shallow embedding of the detection filter of
`GestureRecognizer.process_frame`: `raw` is the classifier's label for the
frame (or `none` when no hand is detected or no rule matches).
`should_detect` holds when the gesture differs from the last one, the
cooldown has elapsed, or the gesture is continuous; only then is the label
reported downstream and the recognizer state updated. -/
def recognizerStep (r : RecState) (raw : Option String) (now : ℚ) :
    Option String × RecState :=
  match raw with
  | none => (none, r)
  | some g =>
    if some g ≠ r.lastGesture ∨ now - r.lastGestureTime > recGestureCooldown ∨
       g ∈ recContinuousGestures then
      (some g, ⟨some g, now⟩)
    else (none, r)

/-- Scan of `recognizerStep` over a frame sequence, returning the label the
recognizer reports for each frame. -/
def recognizerLabels (r : RecState) : List (Option String × ℚ) → List (Option String)
  | [] => []
  | (g, t) :: rest =>
    let s := recognizerStep r g t
    s.1 :: recognizerLabels s.2 rest

/-- Scan of `smoothGesture` over a frame sequence, returning the label the
smoother would report for each frame (the pipeline the spec describes). -/
def smoothedLabels (h : List (String × ℚ)) : List (Option String × ℚ) → List (Option String)
  | [] => []
  | (g, t) :: rest =>
    let s := smoothGesture h g t
    s.1 :: smoothedLabels s.2 rest

/-! ## Lifecycle tracker (`GestureRecognitionApp`, `run.py`) -/

/-- The `GESTURE_MAPPINGS` table of `actions_client.py`. -/
def gestureMappings : List (String × String) :=
  [("fist", "fist"), ("open_palm", "open_palm"), ("thumbs_up", "thumbs_up"),
   ("peace", "peace"), ("call_sign", "call_sign"), ("pointing", "pointing"),
   ("l_shape", "l_shape"), ("rock_sign", "rock_sign"), ("ok_sign", "ok_sign"),
   ("three_fingers", "three_fingers"), ("three_fingers_v2", "three_fingers_v2"),
   ("middle_finger", "middle_finger"), ("ring_finger", "ring_finger"),
   ("pinky", "pinky"), ("two_fingers_ir", "two_fingers_ir"),
   ("two_fingers_mr", "two_fingers_mr"), ("four_fingers", "four_fingers")]

/-- Shallow embedding of `map_gesture_name`:
`GESTURE_MAPPINGS.get(detected_gesture, detected_gesture)`. -/
def mapGestureName (g : String) : String :=
  (((gestureMappings.find? (fun p => p.1 = g)).map Prod.snd).getD g)

/-- Labels the app treats as continuous
(`continuous_gestures = {"call", "peace", "thumbs_up", "thumbs_down"}`
in `_determine_gesture_state`). -/
def appContinuousGestures : List String := ["call", "peace", "thumbs_up", "thumbs_down"]

/-- App-level per-gesture cooldown: `self.gesture_cooldown = 2.0`. -/
def appGestureCooldown : ℚ := 2

/-- Extended cooldown for the call sign: `self.call_sign_cooldown = 6.0`. -/
def callSignCooldown : ℚ := 6

/-- End-of-gesture state-change cooldown:
`self.gesture_state_cooldown_time = 0.2`. -/
def gestureStateCooldownTime : ℚ := 1/5

/-- Lifecycle state of `GestureRecognitionApp` (everything of
`__init__` that the per-frame gesture handling reads or writes, apart from
the recognizer's own state). -/
structure LifeState where
  cameraPaused : Bool
  lastGestureTime : List (String × ℚ)
  activeGestures : List (String × ℚ)
  lastDetectedGesture : Option String
  lastGestureEndTime : Option ℚ
  gestureStateCooldown : List (String × ℚ)
  showingExitMessage : Bool
  exitMessageStartTime : Option ℚ
  exitInitiated : Bool
  gesturesDetected : Nat
  deriving DecidableEq

/-- Initial lifecycle state from `GestureRecognitionApp.__init__`
(`last_gesture_end_time` is only ever assigned in
`_stop_continuous_gesture`, so it starts absent). -/
def initLifeState : LifeState :=
  ⟨false, [], [], none, none, [], false, none, false, 0⟩

/-- Shallow embedding of `GestureRecognitionApp._determine_gesture_state`:
returns the gesture state (`started`, `held`, `ended`, `detected`, or
nothing) and the state updated with the end-cooldown bookkeeping.  In the
source both the `detected_gesture != last` branch and its `else` return
`"started"`, so they are collapsed here. -/
def determineGestureState (st : LifeState) (detected : Option String) (now : ℚ) :
    Option String × LifeState :=
  match detected with
  | none =>
    match st.lastDetectedGesture with
    | some lg =>
      if lg ∈ appContinuousGestures then
        let key := lg ++ "_ended"
        let fire := match lookupQ st.gestureStateCooldown key with
          | none => true
          | some t => now - t > gestureStateCooldownTime
        if fire then
          (some "ended",
           { st with gestureStateCooldown := updateQ st.gestureStateCooldown key now })
        else (none, st)
      else (none, st)
    | none => (none, st)
  | some g =>
    if g ∈ appContinuousGestures then
      if (lookupQ st.activeGestures g).isSome then (some "held", st)
      else (some "started", st)
    else (some "detected", st)

/-- Shallow embedding of `GestureRecognitionApp._start_continuous_gesture`:
record the start time in `active_gestures` and set
`last_detected_gesture`. -/
def startContinuousGesture (st : LifeState) (g : String) (now : ℚ) : LifeState :=
  { st with activeGestures := updateQ st.activeGestures g now,
            lastDetectedGesture := some g }

/-- Shallow embedding of `GestureRecognitionApp._stop_continuous_gesture`:
drop the gesture from `active_gestures`, record the end time, and clear
`last_detected_gesture` when it names the stopped gesture. -/
def stopContinuousGesture (st : LifeState) (g : String) (now : ℚ) : LifeState :=
  let st1 := { st with activeGestures := removeQ st.activeGestures g,
                       lastGestureEndTime := some now }
  if st1.lastDetectedGesture = some g then
    { st1 with lastDetectedGesture := none }
  else st1

/-- Shallow embedding of `GestureRecognitionApp._handle_single_gesture`:
when the per-gesture cooldown (6.0s for `call_sign`, 2.0s otherwise) has
not elapsed, nothing changes; otherwise the timestamp is updated and the
session counter incremented. -/
def handleSingleGesture (st : LifeState) (g : String) (now : ℚ) : LifeState :=
  match lookupQ st.lastGestureTime g with
  | some t =>
    let cd := if g = "call_sign" then callSignCooldown else appGestureCooldown
    if now - t < cd then st
    else { st with lastGestureTime := updateQ st.lastGestureTime g now,
                   gesturesDetected := st.gesturesDetected + 1 }
  | none =>
    { st with lastGestureTime := updateQ st.lastGestureTime g now,
              gesturesDetected := st.gesturesDetected + 1 }

/-- One dispatched event: the mapped gesture identifier and the
`gesture_state` argument handed to `_send_gesture_async`. -/
abbrev Event := String × Option String

/-- Shallow embedding of the gesture-handling part of
`GestureRecognitionApp.process_frame`, with `detected` the label reported
by the recognizer for this frame.  Returns the loop-continuation flag
(`process_frame`'s boolean result), the list of dispatch attempts made
this frame, and the new lifecycle state.  Order follows the source: the
exit countdown is checked first; `_determine_gesture_state` runs next;
then the detected-gesture chain (exit guard, quit gesture, pause toggle,
pause gate, continuous/single handling, unconditional dispatch), or — with
no detection — the continuous-gesture ending branch. -/
def lifecycleStep (st : LifeState) (detected : Option String) (now : ℚ) :
    Bool × List Event × LifeState :=
  let shutdown : Bool := match st.exitMessageStartTime with
    | some t0 => st.showingExitMessage && decide (now - t0 ≥ 3)
    | none => false
  if shutdown then (false, [], st)
  else
    let d := determineGestureState st detected now
    let gs := d.1
    let st1 := d.2
    match detected with
    | some g =>
      if st1.exitInitiated then (true, [], st1)
      else if g = "middle_finger" then
        if !st1.showingExitMessage then
          let stq := { st1 with
            showingExitMessage := true
            exitMessageStartTime := some now
            exitInitiated := true }
          (true, [], stq)
        else (true, [], st1)
      else if g = "call_sign" then
        (true, [], { st1 with cameraPaused := !st1.cameraPaused })
      else if st1.cameraPaused then (true, [], st1)
      else
        let st2 :=
          if gs = some "started" then
            let st' :=
              if some g ≠ st1.lastDetectedGesture then
                match st1.lastDetectedGesture with
                | some lg =>
                  if (lookupQ st1.activeGestures lg).isSome then
                    stopContinuousGesture st1 lg now
                  else st1
                | none => st1
              else st1
            startContinuousGesture st' g now
          else if gs = some "ended" then
            match st1.lastDetectedGesture with
            | some lg =>
              if (lookupQ st1.activeGestures lg).isSome then
                stopContinuousGesture st1 lg now
              else st1
            | none => st1
          else if gs = some "detected" then handleSingleGesture st1 g now
          else st1
        (true, [(mapGestureName g, gs)], st2)
    | none =>
      match gs, st1.lastDetectedGesture with
      | some "ended", some lg =>
        if (lookupQ st1.activeGestures lg).isSome then
          let mg := mapGestureName lg
          (true, [(mg, some "ended")], stopContinuousGesture st1 lg now)
        else (true, [], st1)
      | _, _ => (true, [], st1)

/-- Whole-app per-frame state: the recognizer's repeat-suppression state
plus the lifecycle state. -/
structure AppState where
  recState : RecState
  life : LifeState
  deriving DecidableEq

/-- Initial application state. -/
def initAppState : AppState := ⟨initRecState, initLifeState⟩

/-- One frame of `GestureRecognitionApp.process_frame`, starting from the
classifier's raw label for the frame: the recognizer filter runs first
(`self.recognizer.process_frame(frame)`), then the lifecycle handling.
Returns (continue flag, label consumed by the lifecycle stage, dispatch
attempts, new state). -/
def appStep (st : AppState) (raw : Option String) (now : ℚ) :
    Bool × Option String × List Event × AppState :=
  let r := recognizerStep st.recState raw now
  let l := lifecycleStep st.life r.1 now
  (l.1, r.1, l.2.1, ⟨r.2, l.2.2⟩)

/-- Run `appStep` over a frame sequence, recording for each frame the
continue flag, the consumed label and the dispatched events. -/
def runApp (st : AppState) : List (Option String × ℚ) →
    List (Bool × Option String × List Event) × AppState
  | [] => ([], st)
  | (g, t) :: rest =>
    let s := appStep st g t
    let out := runApp s.2.2.2 rest
    ((s.1, s.2.1, s.2.2.1) :: out.1, out.2)

/-- Per-frame dispatch attempts of a run. -/
def runEvents (st : AppState) (frames : List (Option String × ℚ)) :
    List (List Event) :=
  (runApp st frames).1.map (fun e => e.2.2)

/-- Per-frame continue flags of a run. -/
def runFlags (st : AppState) (frames : List (Option String × ℚ)) : List Bool :=
  (runApp st frames).1.map (fun e => e.1)

/-- Per-frame labels consumed by the lifecycle stage in a run. -/
def runConsumedLabels (st : AppState) (frames : List (Option String × ℚ)) :
    List (Option String) :=
  (runApp st frames).1.map (fun e => e.2.1)

/-! ## Concrete scenarios -/

/-- Alternating wrist samples for the wave test: x oscillates between 0
and 0.1 (consecutive displacements +0.1, -0.1, ...), one sample per
second starting well past the initial cooldown. -/
def waveSamples7 : List ((ℚ × ℚ) × ℚ) :=
  [((0, 1/2), 10), ((1/10, 1/2), 11), ((0, 1/2), 12), ((1/10, 1/2), 13),
   ((0, 1/2), 14), ((1/10, 1/2), 15), ((0, 1/2), 16)]

/-- The first six samples of `waveSamples7`: the six-sample feed the spec
describes. -/
def waveSamples6 : List ((ℚ × ℚ) × ℚ) := waveSamples7.take 6

/-- Ten consecutive frames of `peace` at ten frames per second, then two
frames with no gesture. -/
def peaceFrames : List (Option String × ℚ) :=
  [(some "peace", 100), (some "peace", 1001/10), (some "peace", 1002/10),
   (some "peace", 1003/10), (some "peace", 1004/10), (some "peace", 1005/10),
   (some "peace", 1006/10), (some "peace", 1007/10), (some "peace", 1008/10),
   (some "peace", 1009/10), (none, 101), (none, 1011/10)]

/-- Ten consecutive frames of `thumbs_up` at ten frames per second, then
two frames with no gesture. -/
def thumbsUpFrames : List (Option String × ℚ) :=
  [(some "thumbs_up", 100), (some "thumbs_up", 1001/10), (some "thumbs_up", 1002/10),
   (some "thumbs_up", 1003/10), (some "thumbs_up", 1004/10), (some "thumbs_up", 1005/10),
   (some "thumbs_up", 1006/10), (some "thumbs_up", 1007/10), (some "thumbs_up", 1008/10),
   (some "thumbs_up", 1009/10), (none, 101), (none, 1011/10)]

/-- Five consecutive quit-gesture frames at ten frames per second, a
different gesture one second later, a second quit gesture, and two empty
frames bracketing the end of the 3.0-second grace period. -/
def quitFrames : List (Option String × ℚ) :=
  [(some "middle_finger", 100), (some "middle_finger", 1001/10),
   (some "middle_finger", 1002/10), (some "middle_finger", 1003/10),
   (some "middle_finger", 1004/10), (some "fist", 101), (some "middle_finger", 102),
   (none, 1029/10), (none, 103)]

/-- Raw classifier labels oscillating between the confusable pair
`thumbs_up` and `fist` within one second: the pattern the smoother's
one-tick correction targets. -/
def flickerFrames : List (Option String × ℚ) :=
  [(some "thumbs_up", 100), (some "fist", 1003/10), (some "thumbs_up", 1006/10)]

/-- A landmark set with thumb, index and middle extended and ring and
pinky curled: thumb passes the distance check (squared tip-to-wrist
distance 1/5 against 49/25 times squared mcp-to-wrist distance 1/50) and
points up; index and middle satisfy tip < pip < mcp in y; ring and pinky
have tips below their pips. -/
def v2Hand : Landmarks :=
  { wrist := (1/2, 9/10)
    thumbTip := (3/10, 1/2), thumbIp := (7/20, 7/10), thumbMcp := (2/5, 4/5)
    indexTip := (9/20, 2/5), indexPip := (9/20, 11/20), indexMcp := (9/20, 7/10)
    middleTip := (1/2, 19/50), middlePip := (1/2, 11/20), middleMcp := (1/2, 7/10)
    ringTip := (11/20, 3/4), ringPip := (11/20, 3/5), ringMcp := (11/20, 7/10)
    pinkyTip := (3/5, 39/50), pinkyPip := (3/5, 31/50), pinkyMcp := (3/5, 7/10) }

/-- A hang-loose landmark set: thumb and pinky extended, index, middle
and ring curled. -/
def callHand : Landmarks :=
  { wrist := (1/2, 9/10)
    thumbTip := (3/10, 1/2), thumbIp := (7/20, 7/10), thumbMcp := (2/5, 4/5)
    indexTip := (9/20, 3/4), indexPip := (9/20, 11/20), indexMcp := (9/20, 7/10)
    middleTip := (1/2, 3/4), middlePip := (1/2, 11/20), middleMcp := (1/2, 7/10)
    ringTip := (11/20, 3/4), ringPip := (11/20, 3/5), ringMcp := (11/20, 7/10)
    pinkyTip := (3/5, 9/20), pinkyPip := (3/5, 3/5), pinkyMcp := (3/5, 7/10) }

/-! ## Claim theorems -/

/-- C1: no dispatched payload carries a `gestureState` field.  The call
`send_gesture(gesture, gesture_state=...)` made by `_send_gesture_async`
does not bind (`send_gesture` has no `gesture_state` parameter), so the
`TypeError` is swallowed and nothing is sent; and the message
`send_gesture` would build carries only `gesture` and `timestamp` keys. -/
theorem sendGestureAsync_no_gestureState_payload :
    keywordCallBinds sendGestureParams sendGestureAsyncKeywords = false ∧
    sendGestureAsyncPayloads = [] ∧
    sendGestureMessageKeys.contains "gestureState" = false := by
  decide

unseal Rat.add Rat.mul Rat.sub Rat.inv in
/-- C2 counterexample: ten consecutive `peace` frames do not produce the
claimed started/held/.../ended pattern.  Because `peace` is not in the
recognizer's `continuous_gestures` set, its repeat within the 3.0-second
recognizer cooldown is suppressed, so the tracker sees no gesture from
frame 2 on: the run emits `started` on frame 1, `ended` on frame 2 and
nothing afterwards — in particular no `held` events and no `ended` on
frame 11. -/
theorem peace_lifecycle_run_cex :
    runEvents initAppState peaceFrames =
      [[("peace", some "started")], [("peace", some "ended")],
       [], [], [], [], [], [], [], [], [], []] ∧
    runEvents initAppState peaceFrames ≠
      [[("peace", some "started")], [("peace", some "held")],
       [("peace", some "held")], [("peace", some "held")],
       [("peace", some "held")], [("peace", some "held")],
       [("peace", some "held")], [("peace", some "held")],
       [("peace", some "held")], [("peace", some "held")],
       [("peace", some "ended")], []] := by
  decide

unseal Rat.add Rat.mul Rat.sub Rat.inv in
/-- C2 amended: for a label both stages treat as continuous
(`thumbs_up`), ten consecutive frames emit exactly one `started` on
frame 1, `held` on frames 2 through 10, exactly one `ended` on frame 11,
and nothing on frame 12. -/
theorem thumbs_up_lifecycle_run :
    runEvents initAppState thumbsUpFrames =
      [[("thumbs_up", some "started")], [("thumbs_up", some "held")],
       [("thumbs_up", some "held")], [("thumbs_up", some "held")],
       [("thumbs_up", some "held")], [("thumbs_up", some "held")],
       [("thumbs_up", some "held")], [("thumbs_up", some "held")],
       [("thumbs_up", some "held")], [("thumbs_up", some "held")],
       [("thumbs_up", some "ended")], []] := by
  decide

unseal Rat.add Rat.mul Rat.sub Rat.inv in
/-- C3 counterexample: a second `fist` 2.1 seconds after the first is not
emitted — the recognizer's own 3.0-second same-gesture cooldown
suppresses it before the app-level 2.0-second cooldown is ever
consulted, and the dispatch list of the second frame is empty. -/
theorem momentary_cooldown_cex :
    runEvents initAppState [(some "fist", 100), (some "fist", 1021/10)] =
      [[("fist", some "detected")], []] ∧
    runEvents initAppState [(some "fist", 100), (some "fist", 1021/10)] ≠
      [[("fist", some "detected")], [("fist", some "detected")]] := by
  decide

unseal Rat.add Rat.mul Rat.sub Rat.inv in
/-- C3 amended: a second `fist` 1.0 second after the first is suppressed;
a second `fist` 3.1 seconds after the first (beyond the recognizer's
3.0-second same-gesture cooldown, which dominates the app's 2.0-second
cooldown) is emitted as a `detected` event, the app's per-gesture
cooldown timestamp is updated to the second occurrence, and the session
counter reaches 2. -/
theorem momentary_cooldown_runs :
    runEvents initAppState [(some "fist", 100), (some "fist", 101)] =
      [[("fist", some "detected")], []] ∧
    runEvents initAppState [(some "fist", 100), (some "fist", 1031/10)] =
      [[("fist", some "detected")], [("fist", some "detected")]] ∧
    lookupQ (runApp initAppState
      [(some "fist", 100), (some "fist", 1031/10)]).2.life.lastGestureTime "fist" =
      some (1031/10) ∧
    (runApp initAppState
      [(some "fist", 100), (some "fist", 1031/10)]).2.life.gesturesDetected = 2 := by
  decide

unseal Rat.add Rat.mul Rat.sub Rat.inv in
/-- C4: the pause toggle is dead code.  The classifier labels the
hang-loose pose `call`, while `process_frame` flips `camera_paused` only
on the literal label `call_sign`, which the classifier never returns: a
`call` frame leaves the pause flag false and instead dispatches a
`started` lifecycle event.  The `call_sign` branch itself would flip the
flag and emit nothing, but it is unreachable from the classifier. -/
theorem call_sign_pause_never_triggered :
    classifyGesture false callHand = some "call" ∧
    classifyGesture false callHand ≠ some "call_sign" ∧
    (appStep initAppState (some "call") 100).2.2.2.life.cameraPaused = false ∧
    (appStep initAppState (some "call") 100).2.2.1 = [("call", some "started")] ∧
    (lifecycleStep initLifeState (some "call_sign") 100).2.1 = [] ∧
    (lifecycleStep initLifeState (some "call_sign") 100).2.2.cameraPaused = true := by
  decide

unseal Rat.add Rat.mul Rat.sub Rat.inv in
/-- C5: on a landmark set with thumb, index and middle extended and ring
and pinky curled, the first-checked rule fires, but it returns the label
`three_fingers_serbian_style` — not the `three_fingers_v2` identifier the
repository's own supported-gesture list and mapping table use — and in
particular not the generic `three_fingers`. -/
theorem three_fingers_v2_label_mismatch :
    fingersUp v2Hand = (true, true, true, false, false) ∧
    classifyGesture false v2Hand = some "three_fingers_serbian_style" ∧
    classifyGesture false v2Hand ≠ some "three_fingers_v2" ∧
    classifyGesture false v2Hand ≠ some "three_fingers" := by
  decide

/-- One-step unfolding of `runConsumedLabels`. -/
theorem runConsumedLabels_cons (st : AppState) (g : Option String) (t : ℚ)
    (rest : List (Option String × ℚ)) :
    runConsumedLabels st ((g, t) :: rest) =
      (appStep st g t).2.1 :: runConsumedLabels (appStep st g t).2.2.2 rest := rfl

/-- The label the lifecycle stage consumes in `appStep` is the
recognizer's output for the frame. -/
theorem appStep_consumed (st : AppState) (raw : Option String) (now : ℚ) :
    (appStep st raw now).2.1 = (recognizerStep st.recState raw now).1 := rfl

/-- `appStep` threads the recognizer state through `recognizerStep`. -/
theorem appStep_state (st : AppState) (raw : Option String) (now : ℚ) :
    (appStep st raw now).2.2.2 =
      ⟨(recognizerStep st.recState raw now).2,
       (lifecycleStep st.life (recognizerStep st.recState raw now).1 now).2.2⟩ := rfl

unseal Rat.add Rat.mul Rat.sub Rat.inv in
/-- C6 counterexample: the pipeline does not include the smoother.  On
raw labels thumbs_up, fist, thumbs_up within one second, the smoother's
one-tick correction would report fist on the third frame, but the label
the lifecycle stage consumes on that frame is the raw thumbs_up —
`_smooth_gesture` is defined in the source yet never called. -/
theorem smoother_bypassed_cex :
    runConsumedLabels initAppState flickerFrames =
      [some "thumbs_up", some "fist", some "thumbs_up"] ∧
    smoothedLabels [] flickerFrames =
      [some "thumbs_up", some "fist", some "fist"] ∧
    runConsumedLabels initAppState flickerFrames ≠ smoothedLabels [] flickerFrames := by
  decide

/-- C6 amended: on every frame of every run, the label consumed by the
lifecycle stage equals the recognizer's repeat-suppression filter applied
to the classifier's raw label — the smoother plays no part in the
pipeline. -/
theorem downstream_label_is_recognizer_output :
    ∀ (frames : List (Option String × ℚ)) (r : RecState) (l : LifeState),
      runConsumedLabels ⟨r, l⟩ frames = recognizerLabels r frames
  | [], _, _ => rfl
  | (g, t) :: rest, r, l => by
    rw [runConsumedLabels_cons, appStep_consumed, appStep_state]
    show _ :: _ = recognizerLabels r ((g, t) :: rest)
    simp only [recognizerLabels]
    exact congrArg _ (downstream_label_is_recognizer_output rest _ _)

/-- C7 amended: during the 2.0-second cooldown after a positive wave
detection, `detect_wave` returns false and leaves its state — including
the position window — completely unchanged (the cooldown return happens
before the sample is appended). -/
theorem detectWave_cooldown_returns_false (s : WaveState) (p : ℚ × ℚ) (now : ℚ)
    (h : now - s.lastWaveTime < 2) :
    detectWave s (some p) now = (false, s) := by
  simp [detectWave, h]

/-- Witness for the cooldown theorem at a concrete state and time. -/
theorem detectWave_cooldown_returns_false_witness :
    (101 : ℚ) - (⟨[], 100⟩ : WaveState).lastWaveTime < 2 ∧
    detectWave ⟨[], 100⟩ (some (0, 0)) 101 = (false, ⟨[], 100⟩) :=
  ⟨by norm_num, detectWave_cooldown_returns_false ⟨[], 100⟩ (0, 0) 101 (by norm_num)⟩

unseal Rat.add Rat.mul Rat.sub Rat.inv in
/-- C7 counterexample: a call made 1.0 second after the last positive
detection returns false but does not append the wrist sample — the
window stays `[(0, 0)]` instead of accumulating to
`[(0, 0), (1/2, 1/2)]` as the claim asserts. -/
theorem wave_cooldown_window_cex :
    (detectWave ⟨[(0, 0)], 100⟩ (some (1/2, 1/2)) 101).1 = false ∧
    (detectWave ⟨[(0, 0)], 100⟩ (some (1/2, 1/2)) 101).2.handPositions = [(0, 0)] ∧
    (detectWave ⟨[(0, 0)], 100⟩ (some (1/2, 1/2)) 101).2.handPositions ≠
      [(0, 0), (1/2, 1/2)] := by
  decide

unseal Rat.add Rat.mul Rat.sub Rat.inv in
/-- C8 counterexample: six alternating samples never fill the
seven-sample window (`wave_frames = 7`), so every call — including the
sixth, where the claim expects a positive detection — returns false. -/
theorem wave_six_samples_cex :
    (runWave initWaveState waveSamples6).1 =
      [false, false, false, false, false, false] ∧
    (runWave initWaveState waveSamples6).2.handPositions.length = 6 ∧
    waveFrames = 7 := by
  decide

unseal Rat.add Rat.mul Rat.sub Rat.inv in
/-- C8 amended: a seventh alternating sample fills the window; the six
consecutive displacements alternate in sign with magnitude 0.1 above the
0.05 threshold, so the detector fires on frame 7, records the detection
timestamp and clears the window. -/
theorem wave_seven_samples_detect :
    (runWave initWaveState waveSamples7).1 =
      [false, false, false, false, false, false, true] ∧
    (runWave initWaveState waveSamples7).2 = ⟨[], 16⟩ := by
  decide

unseal Rat.add Rat.mul Rat.sub Rat.inv in
/-- C9: five consecutive quit-gesture frames announce the exit exactly
once (`exit_message_start_time` stays at the first frame's time, also
after a later repeat of the quit gesture), no action is dispatched on
any frame of the run — including a different gesture shown after the
announcement — and the loop signals shutdown exactly once, on the first
frame at least 3.0 seconds after the announcement. -/
theorem quit_sequence_idempotent_run :
    runFlags initAppState quitFrames =
      [true, true, true, true, true, true, true, true, false] ∧
    runEvents initAppState quitFrames = [[], [], [], [], [], [], [], [], []] ∧
    (runApp initAppState quitFrames).2.life.exitMessageStartTime = some 100 ∧
    (runApp initAppState quitFrames).2.life.exitInitiated = true ∧
    (runApp initAppState quitFrames).2.life.showingExitMessage = true ∧
    (runApp initAppState quitFrames).2.life.gesturesDetected = 0 := by
  decide

/-- C10: in HTTP mode, `send_gesture` keeps
`gestures_sent = successful_sends + failed_sends`: a non-empty gesture
increments `gestures_sent` and exactly one of `successful_sends` or
`failed_sends` (every exception branch counts as a failure), and an
empty gesture changes no counter. -/
theorem sendGesture_counter_invariant (st : ClientStats) (g : String) (r : HttpResult)
    (h : st.gesturesSent = st.successfulSends + st.failedSends) :
    (sendGesture st g r).2.gesturesSent =
      (sendGesture st g r).2.successfulSends + (sendGesture st g r).2.failedSends ∧
    (g ≠ "" → (sendGesture st g r).2.gesturesSent = st.gesturesSent + 1 ∧
      (((sendGesture st g r).2.successfulSends = st.successfulSends + 1 ∧
        (sendGesture st g r).2.failedSends = st.failedSends) ∨
       ((sendGesture st g r).2.successfulSends = st.successfulSends ∧
        (sendGesture st g r).2.failedSends = st.failedSends + 1))) ∧
    (g = "" → (sendGesture st g r).2 = st) := by
  by_cases hg : g = ""
  · simp [sendGesture, hg, h]
  · rcases r with ⟨code, jsonOk⟩ | _ | _ | _ <;>
      simp only [sendGesture, sendViaHttp, hg, if_false, ite_false] <;>
      first
        | (split_ifs <;> simp_all <;> omega)
        | (simp_all <;> omega)

/-- Witness for the counter invariant at a concrete state, gesture and
HTTP outcome. -/
theorem sendGesture_counter_invariant_witness :
    (sendGesture ⟨0, 0, 0⟩ "peace" HttpResult.timeout).2.gesturesSent =
      (sendGesture ⟨0, 0, 0⟩ "peace" HttpResult.timeout).2.successfulSends +
      (sendGesture ⟨0, 0, 0⟩ "peace" HttpResult.timeout).2.failedSends :=
  (sendGesture_counter_invariant ⟨0, 0, 0⟩ "peace" HttpResult.timeout rfl).1
